import Mathlib

/-!  Shallow embedding of the Topology Doctor Blender add-on (src/__init__.py).

The add-on defines two operators over scene state:
* MESH_OT_AnalyzeTopo.execute: one pass over a bmesh copy of the active mesh,
  classifying n-gons, non-manifold edges, sliver faces and high-valence poles,
  writing issue records and a health score into scene properties.
* MESH_OT_FocusIssue.execute: parses a record serialized index list and
  round-robin selects the flagged elements in the edit mesh.

Python real arithmetic (face-count fractions, edge lengths) is modelled
exactly by the rationals; Python ints by Int; Blender string/enum properties
by String.  Stateful property-group mutation is modelled by explicit state
passing; operator report calls are collected in a list of (level, message)
pairs.  -/

/-- Result of a Blender operator execute method.  RAISED models an uncaught
Python exception escaping execute. -/
inductive OpResult where
  | FINISHED
  | CANCELLED
  | RAISED
  deriving DecidableEq, Repr

/-- TopoIssueItem property group: a single issue found in the mesh. -/
structure TopoIssueItem where
  severity : String
  name : String
  description : String
  element_indices : String
  element_type : String
  current_pointer : Int
  deriving DecidableEq, Repr

/-- TopoStats property group: global stats of the last analysis run. -/
structure TopoStats where
  vert_count : Int
  face_count : Int
  tri_count : Int
  ngon_count : Int
  score : Int
  target_name : String
  deriving DecidableEq, Repr

/-- Scene-level state owned by the add-on: the report collection and stats. -/
structure Scene where
  topo_report_list : List TopoIssueItem
  topo_stats : TopoStats
  deriving DecidableEq, Repr

/-- Python whitespace characters stripped by int(). -/
def isPySpace (c : Char) : Bool :=
  c = ' ' || c = '\t' || c = '\n' || c = '\r' || c = '\x0b' || c = '\x0c'

/-- Accumulating digit run of a Python integer literal body: decimal digits
with single underscores allowed between digits. -/
def pyDigitsCore : Nat → List Char → Option Nat
  | acc, [] => some acc
  | acc, c :: rest =>
    if c.isDigit then pyDigitsCore (acc * 10 + (c.toNat - 48)) rest
    else if c = '_' then
      match rest with
      | [] => none
      | d :: _ => if d.isDigit then pyDigitsCore acc rest else none
    else none

/-- Digit run of a Python integer string: nonempty, must start with a digit. -/
def pyParseDigits (cs : List Char) : Option Nat :=
  match cs with
  | [] => none
  | c :: _ => if c.isDigit then pyDigitsCore 0 cs else none

/-- Python int(string) on a character list: strip ascii whitespace from both
ends, optional sign, then a digit run. -/
def pyIntCore (cs0 : List Char) : Option Int :=
  let cs := ((cs0.dropWhile (fun c => isPySpace c)).reverse.dropWhile
      (fun c => isPySpace c)).reverse
  match cs with
  | '+' :: rest => (pyParseDigits rest).map (fun n => (n : Int))
  | '-' :: rest => (pyParseDigits rest).map (fun n => -(n : Int))
  | _ => (pyParseDigits cs).map (fun n => (n : Int))

/-- Python int(string). -/
def pyInt (s : String) : Option Int := pyIntCore s.toList

/-- Python string split on a single comma separator, over character lists. -/
def splitCommas : List Char → List (List Char)
  | [] => [[]]
  | c :: rest =>
    if c = ',' then [] :: splitCommas rest
    else
      match splitCommas rest with
      | [] => [[c]]
      | h :: t => (c :: h) :: t

/-- Run a fallible function over a list, failing if any element fails. -/
def mapOption {α β : Type} (f : α → Option β) : List α → Option (List β)
  | [] => some []
  | a :: as =>
    match f a, mapOption f as with
    | some b, some bs => some (b :: bs)
    | _, _ => none

/-- The comprehension [int(i) for i in s.split(",")], as an Option. -/
def pyParseIntList (s : String) : Option (List Int) :=
  mapOption (fun cs => pyIntCore cs) (splitCommas s.toList)

/-- The join on "," of str(n) over a list of element indices. -/
def serializeIdxs (l : List Nat) : String :=
  String.intercalate "," (l.map (fun n => toString n))

/-- Python int() applied to a real value: truncation toward zero, on the exact
rational model of the float arithmetic.  Int.div rounds toward zero and a
rational is stored with positive denominator, so this is exact truncation. -/
def pytrunc (q : ℚ) : Int := q.num.tdiv (q.den : Int)

/-- Python min over a list of numbers (None on the empty list, where Python
raises). -/
def pymin : List ℚ → Option ℚ
  | [] => none
  | x :: xs => some (xs.foldl min x)

/-- Python max over a list of numbers (None on the empty list, where Python
raises). -/
def pymax : List ℚ → Option ℚ
  | [] => none
  | x :: xs => some (xs.foldl max x)

/-- Python list indexing with negative-index wrap-around; none is IndexError. -/
def pyListGet {α : Type} (l : List α) (i : Int) : Option α :=
  if 0 ≤ i then l.get? i.toNat
  else
    let j := (l.length : Int) + i
    if 0 ≤ j then l.get? j.toNat else none

/-- Index resolution of a bmesh element sequence access seq[i]: bmesh sequences
follow Python negative-index semantics; none is IndexError. -/
def bmSeqGetIdx (n : Nat) (i : Int) : Option Nat :=
  if 0 ≤ i then (if i < (n : Int) then some i.toNat else none)
  else
    let j := (n : Int) + i
    if 0 ≤ j then some j.toNat else none

/-- Vertex data read by the analysis pass: the number of linked edges. -/
structure AVert where
  link_edges : Nat
  deriving DecidableEq, Repr

/-- Edge data read by the analysis pass: the manifold predicate. -/
structure AEdge where
  is_manifold : Bool
  deriving DecidableEq, Repr

/-- Face data read by the analysis pass: the vertex count and the list of
edge lengths [e.calc_length() for e in f.edges].  A face has as many edges
as vertices, but the pass reads the two independently. -/
structure AFace where
  vert_count : Nat
  edge_lengths : List ℚ
  deriving DecidableEq, Repr

/-- The private bmesh copy read by the analysis pass; elements are listed in
lookup-table order, so an element index is its list position. -/
structure AMesh where
  verts : List AVert
  edges : List AEdge
  faces : List AFace
  deriving DecidableEq, Repr

/-- The active object: name, type, mode and mesh data. -/
structure Obj where
  name : String
  objType : String
  mode : String
  data : AMesh
  deriving DecidableEq, Repr

/-- Enumerate a list with indices starting at i: the index of a freshly
built bmesh element equals its lookup-table position. -/
def enumFrom {α : Type} (i : Nat) : List α → List (Nat × α)
  | [] => []
  | a :: as => (i, a) :: enumFrom (i + 1) as

/-- Check 1 collection: ngon_faces, the faces with more than 4 vertices,
each paired with its index. -/
def ngon_faces (bm : AMesh) : List (Nat × AFace) :=
  (enumFrom 0 bm.faces).filter (fun p => 4 < p.2.vert_count)

/-- Check 2 collection: bad_edges, the edges failing the manifold predicate. -/
def bad_edges (bm : AMesh) : List (Nat × AEdge) :=
  (enumFrom 0 bm.edges).filter (fun p => !p.2.is_manifold)

/-- Sliver test on one face: more than two edges, and the max/min edge length
ratio over 15, the min length required positive first (Python short-circuit
and, so the division is only evaluated under a positive minimum). -/
def sliver_check (f : AFace) : Bool :=
  if 2 < f.edge_lengths.length then
    match pymin f.edge_lengths, pymax f.edge_lengths with
    | some mn, some mx => decide (0 < mn) && decide (15 < mx / mn)
    | _, _ => false
  else false

/-- Check 3 collection: sliver_faces, faces with extreme edge length ratio. -/
def sliver_faces (bm : AMesh) : List (Nat × AFace) :=
  (enumFrom 0 bm.faces).filter (fun p => sliver_check p.2)

/-- Check 4 collection: pole_verts, vertices with more than 5 linked edges. -/
def pole_verts (bm : AMesh) : List (Nat × AVert) :=
  (enumFrom 0 bm.verts).filter (fun p => 5 < p.2.link_edges)

/-- add_issue: append a fresh record to the scene report collection, cursor
starting at 0. -/
def add_issue (scene : Scene) (severity nm descr indices type_name : String) :
    Scene :=
  { scene with
      topo_report_list := scene.topo_report_list ++
        [{ severity := severity, name := nm, description := descr,
           element_indices := indices, element_type := type_name,
           current_pointer := 0 }] }

/-- N-gon reporting block of the analysis pass. -/
def ngon_block (bm : AMesh) (scene : Scene) : Scene :=
  let ngons := ngon_faces bm
  if ngons.isEmpty then scene
  else
    let indices_str := serializeIdxs ((ngons.take 200).map (fun p => p.1))
    let ratio : ℚ := ((ngons.length : ℚ) / (bm.faces.length : ℚ)) * 100
    let severity := if 1 < ratio then "HIGH" else "MEDIUM"
    add_issue scene severity (toString ngons.length ++ " N-Gons Detected")
      "Faces with >4 edges. Click the button to cycle through them and fix."
      indices_str "FACE"

/-- Non-manifold reporting block of the analysis pass. -/
def nm_block (bm : AMesh) (scene : Scene) : Scene :=
  let bads := bad_edges bm
  if bads.isEmpty then scene
  else
    let indices_str := serializeIdxs ((bads.take 200).map (fun p => p.1))
    add_issue scene "CRITICAL" "Non-Manifold Geometry"
      "Edges creating holes or internal faces."
      indices_str "EDGE"

/-- Sliver reporting block of the analysis pass. -/
def sliver_block (bm : AMesh) (scene : Scene) : Scene :=
  let slivers := sliver_faces bm
  if slivers.isEmpty then scene
  else
    let indices_str := serializeIdxs ((slivers.take 200).map (fun p => p.1))
    add_issue scene "MEDIUM" (toString slivers.length ++ " Sliver Faces")
      "Long, thin faces causing shading artifacts."
      indices_str "FACE"

/-- Pole reporting block of the analysis pass. -/
def pole_block (bm : AMesh) (scene : Scene) : Scene :=
  let poles := pole_verts bm
  if poles.isEmpty then scene
  else
    let indices_str := serializeIdxs ((poles.take 200).map (fun p => p.1))
    add_issue scene "INFO" (toString poles.length ++ " High-Valence Poles")
      "Vertices with >5 edges (Stars). Check placement."
      indices_str "VERT"

/-- The record the n-gon block emits when n-gons exist. -/
def ngon_item (bm : AMesh) : TopoIssueItem :=
  { severity :=
      if 1 < (((ngon_faces bm).length : ℚ) / (bm.faces.length : ℚ)) * 100
      then "HIGH" else "MEDIUM",
    name := toString (ngon_faces bm).length ++ " N-Gons Detected",
    description := "Faces with >4 edges. Click the button to cycle through them and fix.",
    element_indices := serializeIdxs (((ngon_faces bm).take 200).map (fun p => p.1)),
    element_type := "FACE",
    current_pointer := 0 }

/-- The record the non-manifold block emits when bad edges exist. -/
def nm_item (bm : AMesh) : TopoIssueItem :=
  { severity := "CRITICAL",
    name := "Non-Manifold Geometry",
    description := "Edges creating holes or internal faces.",
    element_indices := serializeIdxs (((bad_edges bm).take 200).map (fun p => p.1)),
    element_type := "EDGE",
    current_pointer := 0 }

/-- The record the sliver block emits when sliver faces exist. -/
def sliver_item (bm : AMesh) : TopoIssueItem :=
  { severity := "MEDIUM",
    name := toString (sliver_faces bm).length ++ " Sliver Faces",
    description := "Long, thin faces causing shading artifacts.",
    element_indices := serializeIdxs (((sliver_faces bm).take 200).map (fun p => p.1)),
    element_type := "FACE",
    current_pointer := 0 }

/-- The record the pole block emits when high-valence vertices exist. -/
def pole_item (bm : AMesh) : TopoIssueItem :=
  { severity := "INFO",
    name := toString (pole_verts bm).length ++ " High-Valence Poles",
    description := "Vertices with >5 edges (Stars). Check placement.",
    element_indices := serializeIdxs (((pole_verts bm).take 200).map (fun p => p.1)),
    element_type := "VERT",
    current_pointer := 0 }

/-- The synthetic record emitted when no issue was found. -/
def good_item : TopoIssueItem :=
  { severity := "GOOD", name := "Immaculate Topology",
    description := "No issues found.", element_indices := "",
    element_type := "", current_pointer := 0 }

/-- The records the four defect checks emit, in emission order. -/
def issue_items (bm : AMesh) : List TopoIssueItem :=
  (if (ngon_faces bm).isEmpty then [] else [ngon_item bm]) ++
  (if (bad_edges bm).isEmpty then [] else [nm_item bm]) ++
  (if (sliver_faces bm).isEmpty then [] else [sliver_item bm]) ++
  (if (pole_verts bm).isEmpty then [] else [pole_item bm])

/-- The report list a successful analysis run leaves behind: the emitted
records, or the single GOOD record when no check fired. -/
def report_items (bm : AMesh) : List TopoIssueItem :=
  if (issue_items bm).length = 0 then issue_items bm ++ [good_item]
  else issue_items bm

/-- The scoring step: start at 100, subtract 200 times the ngon fraction,
subtract a flat 25 when non-manifold edges exist, subtract 100 times the
sliver fraction, clamp to the 0..100 range and truncate to an integer. -/
def score_value (bm : AMesh) : Int :=
  let total_faces := bm.faces.length
  let s1 : ℚ := 100 - (((ngon_faces bm).length : ℚ) / (total_faces : ℚ)) * 200
  let s2 : ℚ := if (bad_edges bm).isEmpty then s1 else s1 - 25
  let s3 : ℚ := s2 - (((sliver_faces bm).length : ℚ) / (total_faces : ℚ)) * 100
  pytrunc (max 0 (min 100 s3))

/-- Score formula in the words of the specification: 100 minus 200 times
the ngon fraction, minus a flat 25 if any non-manifold edge exists, minus
100 times the sliver fraction, clamped to the 0..100 range and truncated to
an integer.  Stated over the defect counts and the total face count, to be
compared with the score the code stores. -/
def spec_score (nNgon nBad nSliver total : Nat) : Int :=
  pytrunc (max 0 (min 100
    (100 - 200 * ((nNgon : ℚ) / (total : ℚ))
        - (if nBad ≠ 0 then 25 else 0)
        - 100 * ((nSliver : ℚ) / (total : ℚ)))))

/-- The minimum edge length of a face, 0 when the face has no edges. -/
def min_edge_len (f : AFace) : ℚ := (pymin f.edge_lengths).getD 0

/-- The maximum edge length of a face, 0 when the face has no edges. -/
def max_edge_len (f : AFace) : ℚ := (pymax f.edge_lengths).getD 0

/-- Outcome of MESH_OT_AnalyzeTopo.execute: final scene state, the active
object (its mode possibly changed), the issued reports, and the result. -/
structure AnalyzeOutcome where
  scene : Scene
  active : Option Obj
  reports : List (String × String)
  result : OpResult
  deriving DecidableEq, Repr

/-- MESH_OT_AnalyzeTopo.execute: clear the report list, check the active
object, record the target name, switch to object mode, read a private bmesh
copy, early-return on zero faces, fill the stats, run the four defect
checks, compute the score, add the synthetic GOOD record when nothing was
found, free the copy, restore the previous mode. -/
def AnalyzeTopo_execute (scene0 : Scene) (active : Option Obj) :
    AnalyzeOutcome :=
  let scene := { scene0 with topo_report_list := [] }
  match active with
  | none =>
      { scene := scene, active := none,
        reports := [("ERROR", "Please select a Mesh object.")],
        result := .CANCELLED }
  | some obj0 =>
    if obj0.objType ≠ "MESH" then
      { scene := scene, active := some obj0,
        reports := [("ERROR", "Please select a Mesh object.")],
        result := .CANCELLED }
    else
      let scene :=
        { scene with topo_stats :=
            { scene.topo_stats with target_name := obj0.name } }
      let previous_mode := obj0.mode
      let obj :=
        if previous_mode ≠ "OBJECT" then { obj0 with mode := "OBJECT" }
        else obj0
      let bm := obj.data
      let total_faces := bm.faces.length
      if total_faces = 0 then
        { scene := scene, active := some obj, reports := [],
          result := .FINISHED }
      else
        let scene :=
          { scene with topo_stats :=
              { scene.topo_stats with
                  vert_count := (bm.verts.length : Int),
                  face_count := (total_faces : Int),
                  tri_count :=
                    ((bm.faces.filter (fun f => f.vert_count = 3)).length : Int),
                  ngon_count :=
                    ((bm.faces.filter (fun f => 4 < f.vert_count)).length : Int) } }
        let scene := ngon_block bm scene
        let scene := nm_block bm scene
        let scene := sliver_block bm scene
        let scene := pole_block bm scene
        let scene :=
          { scene with topo_stats :=
              { scene.topo_stats with score := score_value bm } }
        let scene :=
          if scene.topo_report_list.length = 0 then
            add_issue scene "GOOD" "Immaculate Topology" "No issues found." "" ""
          else scene
        let obj :=
          if previous_mode ≠ "OBJECT" then { obj with mode := previous_mode }
          else obj
        { scene := scene, active := some obj, reports := [],
          result := .FINISHED }

/-- Vertex of the edit mesh read by the focus operator: its selection flag. -/
structure EVert where
  select : Bool
  deriving DecidableEq, Repr

/-- Edge of the edit mesh: selection flag and the indices of its vertices. -/
structure EEdge where
  select : Bool
  verts : List Nat
  deriving DecidableEq, Repr

/-- Face of the edit mesh: selection flag and the indices of its vertices. -/
structure EFace where
  select : Bool
  verts : List Nat
  deriving DecidableEq, Repr

/-- The edit-mode bmesh the focus operator mutates: element tables in
lookup-table order plus the selection history. -/
structure EMesh where
  verts : List EVert
  edges : List EEdge
  faces : List EFace
  select_history : List Nat
  deriving DecidableEq, Repr

/-- The three deselection loops: every vertex, edge and face deselected. -/
def deselect_all (bm : EMesh) : EMesh :=
  { bm with
      verts := bm.verts.map (fun v => { v with select := false }),
      edges := bm.edges.map (fun e => { e with select := false }),
      faces := bm.faces.map (fun f => { f with select := false }) }

/-- bm.select_history.clear(). -/
def clear_history (bm : EMesh) : EMesh := { bm with select_history := [] }

/-- The loop setting v.select = True over a list of vertex indices. -/
def select_verts (vs : List EVert) (idxs : List Nat) : List EVert :=
  idxs.foldl (fun acc i => acc.set i { select := true }) vs

/-- Select the face at table position j together with its vertices. -/
def select_face_at (bm : EMesh) (j : Nat) : EMesh :=
  match bm.faces.get? j with
  | none => bm
  | some f =>
      { bm with
          faces := bm.faces.set j { f with select := true },
          verts := select_verts bm.verts f.verts }

/-- Select the edge at table position j together with its vertices. -/
def select_edge_at (bm : EMesh) (j : Nat) : EMesh :=
  match bm.edges.get? j with
  | none => bm
  | some e =>
      { bm with
          edges := bm.edges.set j { e with select := true },
          verts := select_verts bm.verts e.verts }

/-- Select the vertex at table position j. -/
def select_vert_at (bm : EMesh) (j : Nat) : EMesh :=
  match bm.verts.get? j with
  | none => bm
  | some v => { bm with verts := bm.verts.set j { v with select := true } }

/-- The try-block of MESH_OT_FocusIssue.execute: dispatch on the element
type; each branch guards the access with target_id below the table length
and otherwise silently skips the selection.  none models an IndexError
raised inside the block (a bmesh sequence access with a negative index
beyond the table, per Python negative-index semantics), which the operator
catches. -/
def try_select (bm : EMesh) (ty : String) (target_id : Int) : Option EMesh :=
  if ty = "FACE" then
    if target_id < (bm.faces.length : Int) then
      match bmSeqGetIdx bm.faces.length target_id with
      | some j => some (select_face_at bm j)
      | none => none
    else some bm
  else if ty = "EDGE" then
    if target_id < (bm.edges.length : Int) then
      match bmSeqGetIdx bm.edges.length target_id with
      | some j => some (select_edge_at bm j)
      | none => none
    else some bm
  else if ty = "VERT" then
    if target_id < (bm.verts.length : Int) then
      match bmSeqGetIdx bm.verts.length target_id with
      | some j => some (select_vert_at bm j)
      | none => none
    else some bm
  else some bm

/-- Outcome of MESH_OT_FocusIssue.execute: updated record, object mode,
edit mesh, issued reports, result, and whether the view-zoom action ran. -/
structure FocusOutcome where
  item : TopoIssueItem
  mode : String
  mesh : EMesh
  reports : List (String × String)
  result : OpResult
  viewed : Bool
  deriving DecidableEq, Repr

/-- Steps 3b to 6 of MESH_OT_FocusIssue.execute, after the cursor wrap: read
the target id at the cursor (an uncaught IndexError only for a cursor below
the negative range), deselect everything and clear the selection history,
run the guarded selection dispatch (an IndexError there is answered with
the re-analyze error and CANCELLED), zoom the view, advance the cursor, and
report the selection message built from the advanced cursor. -/
def focus_target_phase (item : TopoIssueItem) (mode : String) (bm0 : EMesh)
    (ids : List Int) : FocusOutcome :=
  match pyListGet ids item.current_pointer with
  | none =>
      { item := item, mode := mode, mesh := bm0, reports := [],
        result := .RAISED, viewed := false }
  | some target_id =>
      let bm := clear_history (deselect_all bm0)
      match try_select bm item.element_type target_id with
      | none =>
          { item := item, mode := mode, mesh := bm,
            reports := [("ERROR", "Geometry changed. Please Re-Analyze.")],
            result := .CANCELLED, viewed := false }
      | some bm2 =>
          let item2 := { item with current_pointer := item.current_pointer + 1 }
          let msg := "Selected " ++ item.element_type ++ " #"
              ++ toString target_id ++ " (" ++ toString item2.current_pointer
              ++ "/" ++ toString ids.length ++ ")"
          { item := item2, mode := mode, mesh := bm2,
            reports := [("INFO", msg)], result := .FINISHED, viewed := true }

/-- Step 3 of MESH_OT_FocusIssue.execute: wrap the cursor back to 0 when it
reached the end of the parsed list, then run the selection steps. -/
def focus_select_phase (item : TopoIssueItem) (mode : String) (bm0 : EMesh)
    (ids : List Int) : FocusOutcome :=
  let item :=
    if (ids.length : Int) ≤ item.current_pointer then
      { item with current_pointer := 0 }
    else item
  focus_target_phase item mode bm0 ids

/-- MESH_OT_FocusIssue.execute on the record it targets: ensure edit mode,
parse the serialized indices (empty means warn and finish, a parse failure
means finish silently), then run the cursor wrap and the selection steps. -/
def FocusIssue_execute (item0 : TopoIssueItem) (mode0 : String) (bm0 : EMesh) :
    FocusOutcome :=
  let mode := if mode0 ≠ "EDIT" then "EDIT" else mode0
  if item0.element_indices = "" then
    { item := item0, mode := mode, mesh := bm0,
      reports := [("WARNING", "No specific geometry to select for this issue.")],
      result := .FINISHED, viewed := false }
  else
    match pyParseIntList item0.element_indices with
    | none =>
        { item := item0, mode := mode, mesh := bm0, reports := [],
          result := .FINISHED, viewed := false }
    | some ids => focus_select_phase item0 mode bm0 ids

/-- Repeated invocation state of the focus operator: the targeted record,
the object mode and the edit mesh. -/
structure FocusState where
  item : TopoIssueItem
  mode : String
  mesh : EMesh
  deriving DecidableEq, Repr

/-- One focus invocation from an invocation state. -/
def focus_step (s : FocusState) : FocusOutcome :=
  FocusIssue_execute s.item s.mode s.mesh

/-- The state left behind by a focus invocation. -/
def focus_after (o : FocusOutcome) : FocusState :=
  { item := o.item, mode := o.mode, mesh := o.mesh }

/-- k focus invocations in succession from a starting state. -/
def focusIter (s : FocusState) : Nat → FocusState
  | 0 => s
  | k + 1 => focus_after (focus_step (focusIter s k))

/-- The selection flags of the element table a record of the given type
targets. -/
def selFlags (bm : EMesh) (ty : String) : List Bool :=
  if ty = "FACE" then bm.faces.map (fun f => f.select)
  else if ty = "EDGE" then bm.edges.map (fun e => e.select)
  else bm.verts.map (fun v => v.select)

/-- The size of the element table a record of the given type targets. -/
def tyLen (bm : EMesh) (ty : String) : Nat :=
  if ty = "FACE" then bm.faces.length
  else if ty = "EDGE" then bm.edges.length
  else bm.verts.length

/-- Truncation of an integer value is that integer. -/
theorem pytrunc_intCast (n : Int) : pytrunc (n : ℚ) = n := by
  simp [pytrunc]

/-- The n-gon block appends its record exactly when n-gons exist. -/
theorem ngon_block_eq (bm : AMesh) (scene : Scene) :
    ngon_block bm scene =
      { scene with topo_report_list := scene.topo_report_list ++
          (if (ngon_faces bm).isEmpty then [] else [ngon_item bm]) } := by
  by_cases h : (ngon_faces bm).isEmpty
  · simp [ngon_block, h]
  · simp [ngon_block, h, add_issue, ngon_item]

/-- The non-manifold block appends its record exactly when bad edges exist. -/
theorem nm_block_eq (bm : AMesh) (scene : Scene) :
    nm_block bm scene =
      { scene with topo_report_list := scene.topo_report_list ++
          (if (bad_edges bm).isEmpty then [] else [nm_item bm]) } := by
  by_cases h : (bad_edges bm).isEmpty
  · simp [nm_block, h]
  · simp [nm_block, h, add_issue, nm_item]

/-- The sliver block appends its record exactly when sliver faces exist. -/
theorem sliver_block_eq (bm : AMesh) (scene : Scene) :
    sliver_block bm scene =
      { scene with topo_report_list := scene.topo_report_list ++
          (if (sliver_faces bm).isEmpty then [] else [sliver_item bm]) } := by
  by_cases h : (sliver_faces bm).isEmpty
  · simp [sliver_block, h]
  · simp [sliver_block, h, add_issue, sliver_item]

/-- The pole block appends its record exactly when poles exist. -/
theorem pole_block_eq (bm : AMesh) (scene : Scene) :
    pole_block bm scene =
      { scene with topo_report_list := scene.topo_report_list ++
          (if (pole_verts bm).isEmpty then [] else [pole_item bm]) } := by
  by_cases h : (pole_verts bm).isEmpty
  · simp [pole_block, h]
  · simp [pole_block, h, add_issue, pole_item]

/-- Full characterization of an analysis run on a mesh object with at least
one face: the outcome scene, the restored mode, no reports, FINISHED. -/
theorem AnalyzeTopo_execute_run (scene0 : Scene) (obj : Obj)
    (hM : obj.objType = "MESH") (hf : obj.data.faces.length ≠ 0) :
    AnalyzeTopo_execute scene0 (some obj) =
      { scene :=
          { topo_report_list := report_items obj.data,
            topo_stats :=
              { vert_count := (obj.data.verts.length : Int),
                face_count := (obj.data.faces.length : Int),
                tri_count :=
                  ((obj.data.faces.filter (fun f => f.vert_count = 3)).length : Int),
                ngon_count :=
                  ((obj.data.faces.filter (fun f => 4 < f.vert_count)).length : Int),
                score := score_value obj.data,
                target_name := obj.name } },
        active := some obj,
        reports := [],
        result := .FINISHED } := by
  obtain ⟨onm, oty, omd, odt⟩ := obj
  replace hM : oty = "MESH" := hM
  replace hf : odt.faces.length ≠ 0 := hf
  subst hM
  by_cases hpm : omd = "OBJECT" <;>
    simp [AnalyzeTopo_execute, hf, hpm, ngon_block_eq, nm_block_eq,
      sliver_block_eq, pole_block_eq, report_items, issue_items, add_issue,
      good_item, List.append_assoc] <;>
    split <;> rfl

/-- Characterization of the precondition-failure path: no active object, or
an active object that is not a mesh. -/
theorem AnalyzeTopo_execute_fail (scene0 : Scene) (active : Option Obj)
    (h : active = none ∨ ∃ obj, active = some obj ∧ obj.objType ≠ "MESH") :
    AnalyzeTopo_execute scene0 active =
      { scene := { topo_report_list := [], topo_stats := scene0.topo_stats },
        active := active,
        reports := [("ERROR", "Please select a Mesh object.")],
        result := .CANCELLED } := by
  rcases h with h | ⟨obj, rfl, hM⟩
  · subst h; rfl
  · simp [AnalyzeTopo_execute, hM]

/-- Characterization of the zero-face early return: only the target name is
written, the mode switch is not undone. -/
theorem AnalyzeTopo_execute_zero (scene0 : Scene) (obj : Obj)
    (hM : obj.objType = "MESH") (hf : obj.data.faces.length = 0) :
    AnalyzeTopo_execute scene0 (some obj) =
      { scene := { topo_report_list := [],
                   topo_stats := { scene0.topo_stats with target_name := obj.name } },
        active := some { obj with mode := "OBJECT" },
        reports := [], result := .FINISHED } := by
  obtain ⟨onm, oty, omd, odt⟩ := obj
  replace hM : oty = "MESH" := hM
  replace hf : odt.faces.length = 0 := hf
  subst hM
  by_cases hpm : omd = "OBJECT" <;> simp [AnalyzeTopo_execute, hf, hpm]

/-- C10: every analysis run reads topology from a private in-memory copy of
the mesh (a fresh bmesh built from the mesh data) and frees it without
writing back, so the analyzed object's geometry and topology are unchanged
by the analysis operator on every execution path. -/
theorem C10_mesh_unchanged (scene0 : Scene) (active : Option Obj) :
    (AnalyzeTopo_execute scene0 active).active.map (fun o => o.data) =
      active.map (fun o => o.data) := by
  match active with
  | none => rfl
  | some obj =>
    obtain ⟨onm, oty, omd, odt⟩ := obj
    by_cases hM : oty = "MESH"
    · subst hM
      by_cases hf : odt.faces.length = 0
      · by_cases hpm : omd = "OBJECT" <;> simp [AnalyzeTopo_execute, hf, hpm]
      · by_cases hpm : omd = "OBJECT" <;> simp [AnalyzeTopo_execute, hf, hpm]
    · simp [AnalyzeTopo_execute, hM]

/-- C4 (amended): with no active object or a non-mesh active object the
analysis operator cancels with an error and leaves the stats record
unchanged, but the scene report list has already been cleared by the time
of the check, so it is empties rather than kept exactly as it was. -/
theorem C4_precondition_failure (scene0 : Scene) (active : Option Obj)
    (h : active = none ∨ ∃ obj, active = some obj ∧ obj.objType ≠ "MESH") :
    (AnalyzeTopo_execute scene0 active).result = .CANCELLED
    ∧ (AnalyzeTopo_execute scene0 active).reports
        = [("ERROR", "Please select a Mesh object.")]
    ∧ (AnalyzeTopo_execute scene0 active).scene.topo_stats = scene0.topo_stats
    ∧ (AnalyzeTopo_execute scene0 active).scene.topo_report_list = [] := by
  rw [AnalyzeTopo_execute_fail scene0 active h]
  exact ⟨rfl, rfl, rfl, rfl⟩

/-- C4 witness: the amended statement at a concrete empty scene with no
active object. -/
theorem C4_precondition_failure_witness :
    (AnalyzeTopo_execute ⟨[], ⟨0, 0, 0, 0, 100, ""⟩⟩ none).result = .CANCELLED
    ∧ (AnalyzeTopo_execute ⟨[], ⟨0, 0, 0, 0, 100, ""⟩⟩ none).reports
        = [("ERROR", "Please select a Mesh object.")]
    ∧ (AnalyzeTopo_execute ⟨[], ⟨0, 0, 0, 0, 100, ""⟩⟩ none).scene.topo_stats
        = ⟨0, 0, 0, 0, 100, ""⟩
    ∧ (AnalyzeTopo_execute ⟨[], ⟨0, 0, 0, 0, 100, ""⟩⟩ none).scene.topo_report_list
        = [] :=
  C4_precondition_failure ⟨[], ⟨0, 0, 0, 0, 100, ""⟩⟩ none (Or.inl rfl)

/-- C4 counterexample: with a non-empty report list and no active object
the operator cancels with an error but the report list has been cleared:
the scene state is not exactly as it was before the invocation. -/
theorem C4_counterexample :
    (AnalyzeTopo_execute ⟨[good_item], ⟨1, 2, 3, 4, 50, "old"⟩⟩ none).result
        = OpResult.CANCELLED
    ∧ (AnalyzeTopo_execute ⟨[good_item], ⟨1, 2, 3, 4, 50, "old"⟩⟩
        none).scene.topo_report_list = []
    ∧ ([good_item] : List TopoIssueItem) ≠ [] :=
  ⟨rfl, rfl, by decide⟩

/-- C5 (amended): on a mesh object with zero faces the operator finishes
silently after writing only the stats target name; vertex and face counts
and the score keep their prior values, and the report list stays cleared. -/
theorem C5_zero_faces (scene0 : Scene) (obj : Obj)
    (hM : obj.objType = "MESH") (hf : obj.data.faces.length = 0) :
    (AnalyzeTopo_execute scene0 (some obj)).result = .FINISHED
    ∧ (AnalyzeTopo_execute scene0 (some obj)).reports = []
    ∧ (AnalyzeTopo_execute scene0 (some obj)).scene.topo_stats
        = { scene0.topo_stats with target_name := obj.name }
    ∧ (AnalyzeTopo_execute scene0 (some obj)).scene.topo_report_list = [] := by
  rw [AnalyzeTopo_execute_zero scene0 obj hM hf]
  exact ⟨rfl, rfl, rfl, rfl⟩

/-- C5 witness: the amended statement at a concrete zero-face mesh. -/
theorem C5_zero_faces_witness :
    (AnalyzeTopo_execute ⟨[], ⟨7, 9, 2, 1, 50, "old"⟩⟩
        (some ⟨"Grid", "MESH", "EDIT", ⟨[⟨0⟩, ⟨0⟩, ⟨0⟩], [], []⟩⟩)).result = .FINISHED
    ∧ (AnalyzeTopo_execute ⟨[], ⟨7, 9, 2, 1, 50, "old"⟩⟩
        (some ⟨"Grid", "MESH", "EDIT", ⟨[⟨0⟩, ⟨0⟩, ⟨0⟩], [], []⟩⟩)).reports = []
    ∧ (AnalyzeTopo_execute ⟨[], ⟨7, 9, 2, 1, 50, "old"⟩⟩
        (some ⟨"Grid", "MESH", "EDIT", ⟨[⟨0⟩, ⟨0⟩, ⟨0⟩], [], []⟩⟩)).scene.topo_stats
        = ⟨7, 9, 2, 1, 50, "Grid"⟩
    ∧ (AnalyzeTopo_execute ⟨[], ⟨7, 9, 2, 1, 50, "old"⟩⟩
        (some ⟨"Grid", "MESH", "EDIT", ⟨[⟨0⟩, ⟨0⟩, ⟨0⟩], [], []⟩⟩)).scene.topo_report_list
        = [] :=
  C5_zero_faces ⟨[], ⟨7, 9, 2, 1, 50, "old"⟩⟩
    ⟨"Grid", "MESH", "EDIT", ⟨[⟨0⟩, ⟨0⟩, ⟨0⟩], [], []⟩⟩ rfl rfl

/-- C5 counterexample: on a zero-face mesh with 3 vertices the operator
returns with the stored vertex count still 7: the vertex and face counts
are not updated by the zero-face path. -/
theorem C5_counterexample :
    (AnalyzeTopo_execute ⟨[], ⟨7, 9, 0, 0, 50, "old"⟩⟩
        (some ⟨"Grid", "MESH", "OBJECT",
          ⟨[⟨0⟩, ⟨0⟩, ⟨0⟩], [], []⟩⟩)).scene.topo_stats.vert_count = 7
    ∧ ((7 : Int) ≠ 3)
    ∧ (⟨[⟨0⟩, ⟨0⟩, ⟨0⟩], [], []⟩ : AMesh).verts.length = 3 :=
  ⟨rfl, by decide, rfl⟩

/-- C6 (amended): the operator switches a non-object mode to object mode
before reading; the prior mode is restored on the normal completion path,
and untouched on the precondition-failure path, but the zero-face early
return leaves the object in object mode without restoring. -/
theorem C6_mode_handling (scene0 : Scene) (obj : Obj) :
    (obj.objType = "MESH" → obj.data.faces.length ≠ 0 →
      (AnalyzeTopo_execute scene0 (some obj)).active.map (fun o => o.mode)
        = some obj.mode)
    ∧ (obj.objType = "MESH" → obj.data.faces.length = 0 →
      (AnalyzeTopo_execute scene0 (some obj)).active.map (fun o => o.mode)
        = some "OBJECT")
    ∧ (obj.objType ≠ "MESH" →
      (AnalyzeTopo_execute scene0 (some obj)).active.map (fun o => o.mode)
        = some obj.mode) := by
  refine ⟨fun hM hf => ?_, fun hM hf => ?_, fun hM => ?_⟩
  · rw [AnalyzeTopo_execute_run scene0 obj hM hf]; rfl
  · rw [AnalyzeTopo_execute_zero scene0 obj hM hf]; rfl
  · rw [AnalyzeTopo_execute_fail scene0 (some obj) (Or.inr ⟨obj, rfl, hM⟩)]; rfl

/-- C6 witness: mode restored on a normal run over a one-triangle mesh that
starts in edit mode. -/
theorem C6_mode_handling_witness :
    (AnalyzeTopo_execute ⟨[], ⟨0, 0, 0, 0, 100, ""⟩⟩
        (some ⟨"Cube", "MESH", "EDIT",
          ⟨[⟨2⟩, ⟨2⟩, ⟨2⟩], [⟨true⟩, ⟨true⟩, ⟨true⟩],
            [⟨3, [1, 1, 1]⟩]⟩⟩)).active.map (fun o => o.mode) = some "EDIT" :=
  (C6_mode_handling ⟨[], ⟨0, 0, 0, 0, 100, ""⟩⟩
      ⟨"Cube", "MESH", "EDIT",
        ⟨[⟨2⟩, ⟨2⟩, ⟨2⟩], [⟨true⟩, ⟨true⟩, ⟨true⟩], [⟨3, [1, 1, 1]⟩]⟩⟩).1
    rfl (by decide)

/-- C6 counterexample: starting in edit mode on a zero-face mesh, the
operator returns with the object left in object mode: the prior mode is not
restored on the zero-face early return. -/
theorem C6_counterexample :
    ((AnalyzeTopo_execute ⟨[], ⟨0, 0, 0, 0, 100, ""⟩⟩
        (some ⟨"Grid", "MESH", "EDIT", ⟨[], [], []⟩⟩)).active.map
          (fun o => o.mode)) = some "OBJECT"
    ∧ ("OBJECT" : String) ≠ "EDIT" :=
  ⟨rfl, by decide⟩

/-- C1: for every analyzed mesh with at least one face the stored score is
100 minus 200 times the ngon fraction, minus a flat 25 if any non-manifold
edge exists, minus 100 times the sliver fraction, clamped to 0..100 and
truncated to an integer; and when the only defect is one non-manifold edge
the run leaves exactly one record, of severity CRITICAL, and score 75. -/
theorem C1_score (scene0 : Scene) (obj : Obj)
    (hM : obj.objType = "MESH") (hf : obj.data.faces.length ≠ 0) :
    (AnalyzeTopo_execute scene0 (some obj)).scene.topo_stats.score
      = spec_score (ngon_faces obj.data).length (bad_edges obj.data).length
          (sliver_faces obj.data).length obj.data.faces.length
    ∧ ((ngon_faces obj.data).length = 0 → (bad_edges obj.data).length = 1 →
       (sliver_faces obj.data).length = 0 → (pole_verts obj.data).length = 0 →
        (AnalyzeTopo_execute scene0 (some obj)).scene.topo_report_list
            = [nm_item obj.data]
        ∧ (nm_item obj.data).severity = "CRITICAL"
        ∧ (AnalyzeTopo_execute scene0 (some obj)).scene.topo_stats.score = 75) := by
  rw [AnalyzeTopo_execute_run scene0 obj hM hf]
  constructor
  · show score_value obj.data = _
    rw [score_value, spec_score]
    by_cases hb : (bad_edges obj.data).isEmpty
    · have hb0 : (bad_edges obj.data).length = 0 := by
        simpa [List.isEmpty_iff, List.length_eq_zero] using hb
      rw [if_pos hb, hb0]
      congr 1
      congr 1
      congr 1
      rw [if_neg (by norm_num)]
      ring
    · have hb0 : (bad_edges obj.data).length ≠ 0 := by
        simpa [List.isEmpty_iff, List.length_eq_zero] using hb
      rw [if_neg hb, if_pos hb0]
      congr 1
      congr 1
      congr 1
      ring
  · intro hn hb hs hp
    have hn' : ngon_faces obj.data = [] := List.length_eq_zero.mp hn
    have hs' : sliver_faces obj.data = [] := List.length_eq_zero.mp hs
    have hp' : pole_verts obj.data = [] := List.length_eq_zero.mp hp
    have hbne : bad_edges obj.data ≠ [] := by
      intro h
      rw [h] at hb
      exact absurd hb (by norm_num)
    have hbe : ¬ ((bad_edges obj.data).isEmpty = true) := by
      simp [List.isEmpty_iff, hbne]
    refine ⟨?_, rfl, ?_⟩
    · simp [report_items, issue_items, hn', hs', hp', hbne]
    · show score_value obj.data = 75
      rw [score_value, if_neg hbe, hn, hs]
      norm_num [min_def, max_def]
      simpa using pytrunc_intCast 75

/-- C1 witness: a mesh whose only defect is one non-manifold edge gets
exactly one CRITICAL record and score 75. -/
theorem C1_score_witness :
    (AnalyzeTopo_execute ⟨[], ⟨0, 0, 0, 0, 100, ""⟩⟩
        (some ⟨"Cube", "MESH", "OBJECT",
          ⟨[⟨2⟩, ⟨2⟩, ⟨2⟩], [⟨true⟩, ⟨true⟩, ⟨false⟩],
            [⟨3, [1, 1, 1]⟩]⟩⟩)).scene.topo_report_list
      = [⟨"CRITICAL", "Non-Manifold Geometry",
          "Edges creating holes or internal faces.", "2", "EDGE", 0⟩]
    ∧ (AnalyzeTopo_execute ⟨[], ⟨0, 0, 0, 0, 100, ""⟩⟩
        (some ⟨"Cube", "MESH", "OBJECT",
          ⟨[⟨2⟩, ⟨2⟩, ⟨2⟩], [⟨true⟩, ⟨true⟩, ⟨false⟩],
            [⟨3, [1, 1, 1]⟩]⟩⟩)).scene.topo_stats.score = 75 := by
  have h := (C1_score ⟨[], ⟨0, 0, 0, 0, 100, ""⟩⟩
      ⟨"Cube", "MESH", "OBJECT",
        ⟨[⟨2⟩, ⟨2⟩, ⟨2⟩], [⟨true⟩, ⟨true⟩, ⟨false⟩], [⟨3, [1, 1, 1]⟩]⟩⟩
      rfl (by decide)).2 (by decide) (by decide)
      (by norm_num [sliver_faces, enumFrom, sliver_check, pymin, pymax])
      (by decide)
  refine ⟨?_, h.2.2⟩
  rw [h.1]
  decide

/-- Membership in an if-empty-else-singleton list forces the singleton. -/
theorem mem_ite_singleton {A : Type} {c : Prop} [Decidable c] {it a : A}
    (h : it ∈ (if c then ([] : List A) else [a])) : it = a := by
  split at h
  · simp at h
  · simpa using h

/-- C7: on every analysis run, each record's serialized element_indices is
the serialization of one of the four in-order flagged index lists truncated
to its first 200 entries (or of the empty list, for the GOOD record), and
the truncated lists never exceed 200 entries. -/
theorem C7_indices_cap (scene0 : Scene) (obj : Obj)
    (hM : obj.objType = "MESH") (hf : obj.data.faces.length ≠ 0) :
    (∀ it ∈ (AnalyzeTopo_execute scene0 (some obj)).scene.topo_report_list,
      it.element_indices ∈
        [serializeIdxs (((ngon_faces obj.data).map (fun p => p.1)).take 200),
         serializeIdxs (((bad_edges obj.data).map (fun p => p.1)).take 200),
         serializeIdxs (((sliver_faces obj.data).map (fun p => p.1)).take 200),
         serializeIdxs (((pole_verts obj.data).map (fun p => p.1)).take 200),
         serializeIdxs ([] : List Nat)])
    ∧ (((ngon_faces obj.data).map (fun p => p.1)).take 200).length ≤ 200
    ∧ (((bad_edges obj.data).map (fun p => p.1)).take 200).length ≤ 200
    ∧ (((sliver_faces obj.data).map (fun p => p.1)).take 200).length ≤ 200
    ∧ (((pole_verts obj.data).map (fun p => p.1)).take 200).length ≤ 200 := by
  rw [AnalyzeTopo_execute_run scene0 obj hM hf]
  refine ⟨?_, by simp [List.length_take], by simp [List.length_take],
    by simp [List.length_take], by simp [List.length_take]⟩
  intro it hit
  simp only [report_items] at hit
  have hgl : it ∈ issue_items obj.data ∨ it = good_item := by
    split at hit
    · rcases List.mem_append.mp hit with h | h
      · exact Or.inl h
      · exact Or.inr (by simpa using h)
    · exact Or.inl hit
  rcases hgl with h | rfl
  · simp only [issue_items, List.mem_append] at h
    rcases h with ((h | h) | h) | h
    · rw [mem_ite_singleton h]
      simp [ngon_item, List.map_take]
    · rw [mem_ite_singleton h]
      simp [nm_item, List.map_take]
    · rw [mem_ite_singleton h]
      simp [sliver_item, List.map_take]
    · rw [mem_ite_singleton h]
      simp [pole_item, List.map_take]
  · refine List.mem_cons.mpr (Or.inr (List.mem_cons.mpr (Or.inr (List.mem_cons.mpr
      (Or.inr (List.mem_cons.mpr (Or.inr (List.mem_singleton.mpr (by decide)))))))))

/-- C7 witness: the truncated flagged index lists of a concrete one-ngon
mesh have at most 200 entries. -/
theorem C7_indices_cap_witness :
    (((ngon_faces ⟨[], [], [⟨5, [1, 1, 1, 1, 1]⟩]⟩).map (fun p => p.1)).take 200).length ≤ 200
    ∧ (((bad_edges ⟨[], [], [⟨5, [1, 1, 1, 1, 1]⟩]⟩).map (fun p => p.1)).take 200).length ≤ 200
    ∧ (((sliver_faces ⟨[], [], [⟨5, [1, 1, 1, 1, 1]⟩]⟩).map (fun p => p.1)).take 200).length ≤ 200
    ∧ (((pole_verts ⟨[], [], [⟨5, [1, 1, 1, 1, 1]⟩]⟩).map (fun p => p.1)).take 200).length ≤ 200 :=
  (C7_indices_cap ⟨[], ⟨0, 0, 0, 0, 100, ""⟩⟩
      ⟨"Plane", "MESH", "OBJECT", ⟨[], [], [⟨5, [1, 1, 1, 1, 1]⟩]⟩⟩ rfl
      (by decide)).2

/-- C8: a face is flagged as a sliver exactly when it has at least 3 edges,
a strictly positive minimum edge length and a max/min ratio over 15; a
flagged face always has a positive minimum (the division's zero-denominator
branch is unreachable); and when slivers exist the run emits exactly one
sliver record, of severity MEDIUM. -/
theorem C8_sliver (f : AFace) (scene0 : Scene) (obj : Obj)
    (hM : obj.objType = "MESH") (hf : obj.data.faces.length ≠ 0) :
    (sliver_check f = true ↔
      (3 ≤ f.edge_lengths.length ∧ 0 < min_edge_len f
        ∧ 15 < max_edge_len f / min_edge_len f))
    ∧ (sliver_check f = true → 0 < min_edge_len f)
    ∧ (sliver_faces obj.data ≠ [] →
        ((AnalyzeTopo_execute scene0 (some obj)).scene.topo_report_list.filter
            (fun it => it.description == "Long, thin faces causing shading artifacts."))
          = [sliver_item obj.data]
        ∧ (sliver_item obj.data).severity = "MEDIUM") := by
  have h1 : sliver_check f = true ↔
      (3 ≤ f.edge_lengths.length ∧ 0 < min_edge_len f
        ∧ 15 < max_edge_len f / min_edge_len f) := by
    by_cases h2 : 2 < f.edge_lengths.length
    · cases hl : f.edge_lengths with
      | nil => rw [hl] at h2; simp at h2
      | cons x xs =>
        rw [hl, List.length_cons] at h2
        have h4 : 3 ≤ xs.length + 1 := h2
        simp [sliver_check, hl, pymin, pymax, min_edge_len, max_edge_len, h2, h4]
    · have h3 : ¬ 3 ≤ f.edge_lengths.length := by omega
      simp [sliver_check, h2, h3]
  refine ⟨h1, fun hsl => (h1.mp hsl).2.1, fun hs => ?_⟩
  rw [AnalyzeTopo_execute_run scene0 obj hM hf]
  have hse : (sliver_faces obj.data).isEmpty = false := by
    simp [List.isEmpty_iff, hs]
  have hmem : sliver_item obj.data ∈ issue_items obj.data := by
    simp [issue_items, hse]
  have hlen : ¬ ((issue_items obj.data).length = 0) := by
    have := List.length_pos.mpr (List.ne_nil_of_mem hmem)
    omega
  refine ⟨?_, rfl⟩
  show (report_items obj.data).filter _ = _
  rw [report_items, if_neg hlen]
  by_cases h1e : (ngon_faces obj.data).isEmpty <;>
  by_cases h2e : (bad_edges obj.data).isEmpty <;>
  by_cases h4e : (pole_verts obj.data).isEmpty <;>
    simp [issue_items, hse, h1e, h2e, h4e, List.filter_append,
      ngon_item, nm_item, sliver_item, pole_item]

/-- C8 witness: a 16:1 triangle is flagged and a mesh holding it yields the
single MEDIUM sliver record. -/
theorem C8_sliver_witness :
    ((AnalyzeTopo_execute ⟨[], ⟨0, 0, 0, 0, 100, ""⟩⟩
        (some ⟨"Sliver", "MESH", "OBJECT",
          ⟨[], [], [⟨3, [16, 1, 1]⟩]⟩⟩)).scene.topo_report_list.filter
        (fun it => it.description == "Long, thin faces causing shading artifacts."))
      = [sliver_item ⟨[], [], [⟨3, [16, 1, 1]⟩]⟩]
    ∧ (sliver_item ⟨[], [], [⟨3, [16, 1, 1]⟩]⟩).severity = "MEDIUM" :=
  (C8_sliver ⟨3, [16, 1, 1]⟩ ⟨[], ⟨0, 0, 0, 0, 100, ""⟩⟩
      ⟨"Sliver", "MESH", "OBJECT", ⟨[], [], [⟨3, [16, 1, 1]⟩]⟩⟩ rfl (by decide)).2.2
    (by norm_num [sliver_faces, enumFrom, sliver_check, pymin, pymax, min_def, max_def])

/-- C9 (amended): on an empty serialized list the focus operator warns and
finishes; on a malformed list it finishes silently with no warning report;
in both cases the record, the cursor and the mesh selection state are
untouched and no zoom is requested. -/
theorem C9_empty_or_malformed (item : TopoIssueItem) (mode : String) (bm : EMesh)
    (h : item.element_indices = "" ∨ pyParseIntList item.element_indices = none) :
    (FocusIssue_execute item mode bm).item = item
    ∧ (FocusIssue_execute item mode bm).mesh = bm
    ∧ (FocusIssue_execute item mode bm).result = .FINISHED
    ∧ (FocusIssue_execute item mode bm).viewed = false
    ∧ (FocusIssue_execute item mode bm).reports
        = (if item.element_indices = "" then
            [("WARNING", "No specific geometry to select for this issue.")]
          else []) := by
  rcases h with h | h
  · simp [FocusIssue_execute, h]
  · by_cases he : item.element_indices = ""
    · simp [FocusIssue_execute, he]
    · simp [FocusIssue_execute, he, h]

/-- C9 witness: the amended statement at the malformed list "abc". -/
theorem C9_empty_or_malformed_witness :
    (FocusIssue_execute ⟨"HIGH", "n", "d", "abc", "FACE", 0⟩ "EDIT"
        ⟨[], [], [⟨false, []⟩], []⟩).item = ⟨"HIGH", "n", "d", "abc", "FACE", 0⟩
    ∧ (FocusIssue_execute ⟨"HIGH", "n", "d", "abc", "FACE", 0⟩ "EDIT"
        ⟨[], [], [⟨false, []⟩], []⟩).mesh = ⟨[], [], [⟨false, []⟩], []⟩
    ∧ (FocusIssue_execute ⟨"HIGH", "n", "d", "abc", "FACE", 0⟩ "EDIT"
        ⟨[], [], [⟨false, []⟩], []⟩).result = .FINISHED
    ∧ (FocusIssue_execute ⟨"HIGH", "n", "d", "abc", "FACE", 0⟩ "EDIT"
        ⟨[], [], [⟨false, []⟩], []⟩).viewed = false
    ∧ (FocusIssue_execute ⟨"HIGH", "n", "d", "abc", "FACE", 0⟩ "EDIT"
        ⟨[], [], [⟨false, []⟩], []⟩).reports = [] := by
  have h := C9_empty_or_malformed ⟨"HIGH", "n", "d", "abc", "FACE", 0⟩ "EDIT"
      ⟨[], [], [⟨false, []⟩], []⟩ (Or.inr (by decide))
  simpa using h

/-- C9 counterexample: on the malformed list "abc" the operator finishes
with an empty report list: no warning is issued on the parse-failure path,
refuting that a warning accompanies every parse failure. -/
theorem C9_counterexample :
    (FocusIssue_execute ⟨"HIGH", "n", "d", "abc", "FACE", 3⟩ "OBJECT"
        ⟨[⟨true⟩], [], [⟨false, [0]⟩], []⟩).reports = []
    ∧ (FocusIssue_execute ⟨"HIGH", "n", "d", "abc", "FACE", 3⟩ "OBJECT"
        ⟨[⟨true⟩], [], [⟨false, [0]⟩], []⟩).result = .FINISHED := by
  decide

/-- C3: observed code behavior at a stale out-of-bounds index: with index 5
recorded but only one face left in the table, the focus operator does not
cancel with the re-analyze error: the guarded dispatch silently skips the
selection, the cursor still advances, the zoom runs and a success message
naming the skipped element is reported. -/
theorem C3_stale_index_behavior :
    FocusIssue_execute ⟨"HIGH", "5 N-Gons Detected", "d", "5", "FACE", 0⟩ "EDIT"
        ⟨[⟨false⟩], [], [⟨false, [0]⟩], [7]⟩ =
      { item := ⟨"HIGH", "5 N-Gons Detected", "d", "5", "FACE", 1⟩,
        mode := "EDIT",
        mesh := ⟨[⟨false⟩], [], [⟨false, [0]⟩], []⟩,
        reports := [("INFO", "Selected FACE #5 (1/1)")],
        result := .FINISHED, viewed := true } := by
  decide

/-- The vertex-selection loop does not change the table size. -/
theorem select_verts_length (vs : List EVert) (idxs : List Nat) :
    (select_verts vs idxs).length = vs.length := by
  induction idxs generalizing vs with
  | nil => rfl
  | cons i is ih =>
      show (select_verts (vs.set i { select := true }) is).length = vs.length
      rw [ih, List.length_set]

/-- Mapping after a pointwise-constant-false composition gives a replicate. -/
theorem map_map_const_false {A B : Type} (l : List A) (g : A → B) (h : B → Bool)
    (hc : ∀ a, h (g a) = false) :
    (l.map g).map h = List.replicate l.length false := by
  induction l with
  | nil => rfl
  | cons x xs ih => simp [hc, ih, List.replicate_succ]

/-- bmesh sequence access resolves plainly for an in-range nonnegative index. -/
theorem bmSeqGetIdx_nonneg (n : Nat) (i : Int) (h0 : 0 ≤ i) (hlt : i < (n : Int)) :
    bmSeqGetIdx n i = some i.toNat := by
  simp [bmSeqGetIdx, h0, hlt]

/-- Python list access resolves plainly for an in-range nonnegative index. -/
theorem pyListGet_eq (l : List Int) (i : Int) (h0 : 0 ≤ i)
    (hlt : i.toNat < l.length) :
    pyListGet l i = some (l.getD i.toNat 0) := by
  simp only [pyListGet, if_pos h0]
  rw [List.get?_eq_get hlt, List.getD_eq_get l 0 hlt]

/-- The guarded dispatch on a FACE record with an in-range nonnegative
target selects the face. -/
theorem try_select_face (bm : EMesh) (t : Int) (h0 : 0 ≤ t)
    (hlt : t < (bm.faces.length : Int)) :
    try_select bm "FACE" t = some (select_face_at bm t.toNat) := by
  simp [try_select, hlt, bmSeqGetIdx_nonneg _ _ h0 hlt]

/-- The guarded dispatch on an EDGE record with an in-range nonnegative
target selects the edge. -/
theorem try_select_edge (bm : EMesh) (t : Int) (h0 : 0 ≤ t)
    (hlt : t < (bm.edges.length : Int)) :
    try_select bm "EDGE" t = some (select_edge_at bm t.toNat) := by
  simp [try_select, hlt, bmSeqGetIdx_nonneg _ _ h0 hlt]

/-- The guarded dispatch on a VERT record with an in-range nonnegative
target selects the vertex. -/
theorem try_select_vert (bm : EMesh) (t : Int) (h0 : 0 ≤ t)
    (hlt : t < (bm.verts.length : Int)) :
    try_select bm "VERT" t = some (select_vert_at bm t.toNat) := by
  simp [try_select, hlt, bmSeqGetIdx_nonneg _ _ h0 hlt]

/-- Selecting a face on the freshly deselected mesh leaves exactly one true
face flag, at the target position, and preserves the face table size. -/
theorem select_face_at_flags (bm : EMesh) (j : Nat) (hj : j < bm.faces.length) :
    (select_face_at (clear_history (deselect_all bm)) j).faces.map
        (fun f => f.select)
      = (List.replicate bm.faces.length false).set j true
    ∧ (select_face_at (clear_history (deselect_all bm)) j).faces.length
      = bm.faces.length := by
  have hget : (clear_history (deselect_all bm)).faces.get? j
      = some { bm.faces.get ⟨j, hj⟩ with select := false } := by
    show (bm.faces.map (fun f => ({ f with select := false } : EFace))).get? j = _
    rw [List.get?_map, List.get?_eq_get hj]
    rfl
  simp only [select_face_at, hget]
  refine ⟨?_, ?_⟩
  · show ((bm.faces.map (fun f => ({ f with select := false } : EFace))).set j
        _).map (fun f => f.select) = _
    rw [List.map_set, map_map_const_false _ _ _ (fun a => rfl)]
  · simp [clear_history, deselect_all]

/-- Selecting an edge on the freshly deselected mesh leaves exactly one true
edge flag, at the target position, and preserves the edge table size. -/
theorem select_edge_at_flags (bm : EMesh) (j : Nat) (hj : j < bm.edges.length) :
    (select_edge_at (clear_history (deselect_all bm)) j).edges.map
        (fun e => e.select)
      = (List.replicate bm.edges.length false).set j true
    ∧ (select_edge_at (clear_history (deselect_all bm)) j).edges.length
      = bm.edges.length := by
  have hget : (clear_history (deselect_all bm)).edges.get? j
      = some { bm.edges.get ⟨j, hj⟩ with select := false } := by
    show (bm.edges.map (fun e => ({ e with select := false } : EEdge))).get? j = _
    rw [List.get?_map, List.get?_eq_get hj]
    rfl
  simp only [select_edge_at, hget]
  refine ⟨?_, ?_⟩
  · show ((bm.edges.map (fun e => ({ e with select := false } : EEdge))).set j
        _).map (fun e => e.select) = _
    rw [List.map_set, map_map_const_false _ _ _ (fun a => rfl)]
  · simp [clear_history, deselect_all]

/-- Selecting a vertex on the freshly deselected mesh leaves exactly one
true vertex flag, at the target position, and preserves the vertex table. -/
theorem select_vert_at_flags (bm : EMesh) (j : Nat) (hj : j < bm.verts.length) :
    (select_vert_at (clear_history (deselect_all bm)) j).verts.map
        (fun v => v.select)
      = (List.replicate bm.verts.length false).set j true
    ∧ (select_vert_at (clear_history (deselect_all bm)) j).verts.length
      = bm.verts.length := by
  have hget : (clear_history (deselect_all bm)).verts.get? j
      = some { bm.verts.get ⟨j, hj⟩ with select := false } := by
    show (bm.verts.map (fun v => ({ v with select := false } : EVert))).get? j = _
    rw [List.get?_map, List.get?_eq_get hj]
    rfl
  simp only [select_vert_at, hget]
  refine ⟨?_, ?_⟩
  · show ((bm.verts.map (fun v => ({ v with select := false } : EVert))).set j
        _).map (fun v => v.select) = _
    rw [List.map_set, map_map_const_false _ _ _ (fun a => rfl)]
  · simp [clear_history, deselect_all]

/-- On a record whose indices parse, execute runs the selection phases. -/
theorem FocusIssue_execute_parse (item : TopoIssueItem) (mode : String)
    (bm : EMesh) (ids : List Int)
    (hp : pyParseIntList item.element_indices = some ids) :
    FocusIssue_execute item mode bm
      = focus_select_phase item (if mode ≠ "EDIT" then "EDIT" else mode) bm ids := by
  have hne : ¬ (item.element_indices = "") := by
    intro h
    rw [h, show pyParseIntList "" = none from by decide] at hp
    exact Option.noConfusion hp
  simp only [FocusIssue_execute, if_neg hne, hp]

/-- The wrap step of the selection phase, spelled out. -/
theorem focus_select_phase_eq (item : TopoIssueItem) (mode : String)
    (bm : EMesh) (ids : List Int) :
    focus_select_phase item mode bm ids
      = focus_target_phase
          (if (ids.length : Int) ≤ item.current_pointer then
            { item with current_pointer := 0 } else item) mode bm ids := rfl

/-- The selection steps when the cursor reads an in-range target and the
dispatch succeeds. -/
theorem focus_target_phase_success (item : TopoIssueItem) (mode : String)
    (bm : EMesh) (ids : List Int) (bm2 : EMesh)
    (h0 : 0 ≤ item.current_pointer)
    (hlt : item.current_pointer.toNat < ids.length)
    (hts : try_select (clear_history (deselect_all bm)) item.element_type
        (ids.getD item.current_pointer.toNat 0) = some bm2) :
    focus_target_phase item mode bm ids =
      { item := { item with current_pointer := item.current_pointer + 1 },
        mode := mode, mesh := bm2,
        reports := [("INFO", "Selected " ++ item.element_type ++ " #"
          ++ toString (ids.getD item.current_pointer.toNat 0)
          ++ " (" ++ toString (item.current_pointer + 1)
          ++ "/" ++ toString ids.length ++ ")")],
        result := .FINISHED, viewed := true } := by
  simp only [focus_target_phase, pyListGet_eq ids _ h0 hlt, hts]

/-- The selection steps on a cycling record: for each of the three element
types, with a nonnegative in-range cursor and all indices inside the
targeted table, the element at the cursor position ends up selected alone
in its table, the cursor advances by one and the success message names the
target. -/
theorem focus_target_phase_cycle (item : TopoIssueItem) (mode : String)
    (bm : EMesh) (ids : List Int)
    (hty : item.element_type = "FACE" ∨ item.element_type = "EDGE"
        ∨ item.element_type = "VERT")
    (h0 : 0 ≤ item.current_pointer)
    (hlt : item.current_pointer.toNat < ids.length)
    (hb : ∀ i ∈ ids, 0 ≤ i ∧ i < (tyLen bm item.element_type : Int)) :
    focus_target_phase item mode bm ids =
      { item := { item with current_pointer := item.current_pointer + 1 },
        mode := mode,
        mesh := (focus_target_phase item mode bm ids).mesh,
        reports := [("INFO", "Selected " ++ item.element_type ++ " #"
            ++ toString (ids.getD item.current_pointer.toNat 0)
            ++ " (" ++ toString (item.current_pointer + 1)
            ++ "/" ++ toString ids.length ++ ")")],
        result := .FINISHED, viewed := true }
    ∧ selFlags (focus_target_phase item mode bm ids).mesh item.element_type
        = (List.replicate (tyLen bm item.element_type) false).set
            (ids.getD item.current_pointer.toNat 0).toNat true
    ∧ tyLen (focus_target_phase item mode bm ids).mesh item.element_type
        = tyLen bm item.element_type := by
  obtain ⟨ht0, htlt⟩ := hb (ids.getD item.current_pointer.toNat 0)
    (by rw [List.getD_eq_get ids 0 hlt]; exact List.get_mem ..)
  rcases hty with h | h | h
  · have hlen : (clear_history (deselect_all bm)).faces.length
        = bm.faces.length := by
      simp [clear_history, deselect_all]
    rw [h] at htlt
    simp only [tyLen, if_pos rfl] at htlt
    have htlt' : ids.getD item.current_pointer.toNat 0
        < ((clear_history (deselect_all bm)).faces.length : Int) := by
      rw [hlen]; exact htlt
    have hts := try_select_face (clear_history (deselect_all bm)) _ ht0 htlt'
    rw [← h] at hts
    have hrun := focus_target_phase_success item mode bm ids _ h0 hlt hts
    have hj : (ids.getD item.current_pointer.toNat 0).toNat < bm.faces.length := by
      omega
    refine ⟨by rw [hrun], ?_, ?_⟩
    · rw [hrun]
      simp only [h, selFlags, if_pos rfl, tyLen]
      exact (select_face_at_flags bm _ hj).1
    · rw [hrun]
      simp only [h, tyLen, if_pos rfl]
      exact (select_face_at_flags bm _ hj).2
  · have hlen : (clear_history (deselect_all bm)).edges.length
        = bm.edges.length := by
      simp [clear_history, deselect_all]
    have hselE : ∀ m : EMesh, selFlags m "EDGE" = m.edges.map (fun e => e.select) :=
      fun m => by simp [selFlags]
    have hlenE : ∀ m : EMesh, tyLen m "EDGE" = m.edges.length :=
      fun m => by simp [tyLen]
    rw [h, hlenE bm] at htlt
    have htlt' : ids.getD item.current_pointer.toNat 0
        < ((clear_history (deselect_all bm)).edges.length : Int) := by
      rw [hlen]; exact htlt
    have hts := try_select_edge (clear_history (deselect_all bm)) _ ht0 htlt'
    rw [← h] at hts
    have hrun := focus_target_phase_success item mode bm ids _ h0 hlt hts
    have hj : (ids.getD item.current_pointer.toNat 0).toNat < bm.edges.length := by
      omega
    refine ⟨by rw [hrun], ?_, ?_⟩
    · rw [hrun, h, hselE, hlenE bm]
      exact (select_edge_at_flags bm _ hj).1
    · rw [hrun, h, hlenE, hlenE bm]
      exact (select_edge_at_flags bm _ hj).2
  · have hlen : (clear_history (deselect_all bm)).verts.length
        = bm.verts.length := by
      simp [clear_history, deselect_all]
    have hselV : ∀ m : EMesh, selFlags m "VERT" = m.verts.map (fun v => v.select) :=
      fun m => by simp [selFlags]
    have hlenV : ∀ m : EMesh, tyLen m "VERT" = m.verts.length :=
      fun m => by simp [tyLen]
    rw [h, hlenV bm] at htlt
    have htlt' : ids.getD item.current_pointer.toNat 0
        < ((clear_history (deselect_all bm)).verts.length : Int) := by
      rw [hlen]; exact htlt
    have hts := try_select_vert (clear_history (deselect_all bm)) _ ht0 htlt'
    rw [← h] at hts
    have hrun := focus_target_phase_success item mode bm ids _ h0 hlt hts
    have hj : (ids.getD item.current_pointer.toNat 0).toNat < bm.verts.length := by
      omega
    refine ⟨by rw [hrun], ?_, ?_⟩
    · rw [hrun, h, hselV, hlenV bm]
      exact (select_vert_at_flags bm _ hj).1
    · rw [hrun, h, hlenV, hlenV bm]
      exact (select_vert_at_flags bm _ hj).2

/-- One focus invocation on a cycling record: the serialized list and the
element type are kept, the cursor (wrapped to 0 if it ran past the end)
advances by one, the invocation finishes with the success message naming
the element at the wrapped cursor position, and that element ends up
selected alone in its table, whose size is preserved. -/
theorem focus_step_cycle (item : TopoIssueItem) (mode : String) (bm : EMesh)
    (ids : List Int)
    (hp : pyParseIntList item.element_indices = some ids)
    (hty : item.element_type = "FACE" ∨ item.element_type = "EDGE"
        ∨ item.element_type = "VERT")
    (hn : 0 < ids.length)
    (hc0 : 0 ≤ item.current_pointer)
    (hb : ∀ i ∈ ids, 0 ≤ i ∧ i < (tyLen bm item.element_type : Int)) :
    (FocusIssue_execute item mode bm).item.element_indices = item.element_indices
    ∧ (FocusIssue_execute item mode bm).item.element_type = item.element_type
    ∧ (FocusIssue_execute item mode bm).item.current_pointer
        = (if (ids.length : Int) ≤ item.current_pointer then 0
            else item.current_pointer) + 1
    ∧ (FocusIssue_execute item mode bm).result = .FINISHED
    ∧ (FocusIssue_execute item mode bm).reports
        = [("INFO", "Selected " ++ item.element_type ++ " #"
            ++ toString (ids.getD (if (ids.length : Int) ≤ item.current_pointer
                then 0 else item.current_pointer.toNat) 0)
            ++ " (" ++ toString ((if (ids.length : Int) ≤ item.current_pointer
                then 0 else item.current_pointer) + 1)
            ++ "/" ++ toString ids.length ++ ")")]
    ∧ selFlags (FocusIssue_execute item mode bm).mesh item.element_type
        = (List.replicate (tyLen bm item.element_type) false).set
            (ids.getD (if (ids.length : Int) ≤ item.current_pointer
                then 0 else item.current_pointer.toNat) 0).toNat true
    ∧ tyLen (FocusIssue_execute item mode bm).mesh item.element_type
        = tyLen bm item.element_type := by
  rw [FocusIssue_execute_parse item mode bm ids hp, focus_select_phase_eq]
  by_cases hw : (ids.length : Int) ≤ item.current_pointer
  · simp only [if_pos hw]
    have hph := focus_target_phase_cycle { item with current_pointer := 0 }
        (if mode ≠ "EDIT" then "EDIT" else mode) bm ids hty (le_refl 0)
        (by simpa using hn) hb
    rw [hph.1]
    exact ⟨rfl, rfl, rfl, rfl, rfl, hph.2.1, hph.2.2⟩
  · simp only [if_neg hw]
    have hlt : item.current_pointer.toNat < ids.length := by omega
    have hph := focus_target_phase_cycle item
        (if mode ≠ "EDIT" then "EDIT" else mode) bm ids hty hc0 hlt hb
    rw [hph.1]
    exact ⟨rfl, rfl, rfl, rfl, rfl, hph.2.1, hph.2.2⟩

/-- Stepping a remainder: the successor remainder wraps to 0 exactly when
the remainder had reached the modulus minus one. -/
theorem succ_mod_cases (m n : Nat) (hn : 0 < n) :
    (m + 1) % n = if m % n + 1 = n then 0 else m % n + 1 := by
  rcases Nat.lt_or_ge 1 n with h1 | h1
  · rw [Nat.add_mod, Nat.mod_eq_of_lt h1]
    by_cases h : m % n + 1 = n
    · rw [if_pos h, h, Nat.mod_self]
    · have hlt : m % n + 1 < n := by
        have := Nat.mod_lt m hn
        omega
      rw [if_neg h, Nat.mod_eq_of_lt hlt]
  · have hn1 : n = 1 := by omega
    subst hn1
    simp [Nat.mod_one]

/-- Invariant of repeated focus invocations on a well-formed cycling
record: the record strings and the targeted table size are preserved, and
the stored cursor after k invocations is ((k-1) mod n) + 1, having started
at 0. -/
theorem focusIter_invariant (item0 : TopoIssueItem) (mode0 : String)
    (bm0 : EMesh) (ids : List Int)
    (hp : pyParseIntList item0.element_indices = some ids)
    (hty : item0.element_type = "FACE" ∨ item0.element_type = "EDGE"
        ∨ item0.element_type = "VERT")
    (hn : 0 < ids.length)
    (hc : item0.current_pointer = 0)
    (hb : ∀ i ∈ ids, 0 ≤ i ∧ i < (tyLen bm0 item0.element_type : Int)) :
    ∀ k : Nat,
      (focusIter ⟨item0, mode0, bm0⟩ k).item.element_indices
          = item0.element_indices
      ∧ (focusIter ⟨item0, mode0, bm0⟩ k).item.element_type
          = item0.element_type
      ∧ (focusIter ⟨item0, mode0, bm0⟩ k).item.current_pointer
          = (if k = 0 then 0 else (((k - 1) % ids.length + 1 : Nat) : Int))
      ∧ tyLen (focusIter ⟨item0, mode0, bm0⟩ k).mesh item0.element_type
          = tyLen bm0 item0.element_type := by
  intro k
  induction k with
  | zero => exact ⟨rfl, rfl, by simp [focusIter, hc], rfl⟩
  | succ k ih =>
    obtain ⟨h1, h2, h3, h4⟩ := ih
    have hc0 : 0 ≤ (focusIter ⟨item0, mode0, bm0⟩ k).item.current_pointer := by
      rw [h3]
      split
      · exact le_refl 0
      · exact Int.ofNat_nonneg _
    have hstep := focus_step_cycle (focusIter ⟨item0, mode0, bm0⟩ k).item
        (focusIter ⟨item0, mode0, bm0⟩ k).mode
        (focusIter ⟨item0, mode0, bm0⟩ k).mesh ids
        (by rw [h1]; exact hp)
        (by rw [h2]; exact hty)
        hn hc0
        (by rw [h2, h4]; exact hb)
    refine ⟨?_, ?_, ?_, ?_⟩
    · show (FocusIssue_execute _ _ _).item.element_indices = _
      rw [hstep.1, h1]
    · show (FocusIssue_execute _ _ _).item.element_type = _
      rw [hstep.2.1, h2]
    · show (FocusIssue_execute _ _ _).item.current_pointer = _
      rw [hstep.2.2.1, h3, if_neg (Nat.succ_ne_zero k), Nat.add_sub_cancel]
      rcases Nat.eq_zero_or_pos k with rfl | hk
      · rw [if_pos rfl, if_neg (by omega)]
        simp
      · rw [if_neg (by omega : ¬ k = 0)]
        by_cases hwrap : (k - 1) % ids.length + 1 = ids.length
        · have hcond : (ids.length : Int)
              ≤ (((k - 1) % ids.length + 1 : Nat) : Int) := by
            exact_mod_cast le_of_eq hwrap.symm
          rw [if_pos hcond]
          have hsm : k % ids.length = 0 := by
            have h' := succ_mod_cases (k - 1) ids.length hn
            rw [if_pos hwrap] at h'
            rwa [show k - 1 + 1 = k from by omega] at h'
          rw [hsm]
          norm_num
        · have hmlt := Nat.mod_lt (k - 1) hn
          have hlt2 : (k - 1) % ids.length + 1 < ids.length := by omega
          rw [if_neg (by push_cast; omega)]
          have hsm : k % ids.length = (k - 1) % ids.length + 1 := by
            have h' := succ_mod_cases (k - 1) ids.length hn
            rw [if_neg hwrap] at h'
            rwa [show k - 1 + 1 = k from by omega] at h'
          rw [hsm]
          push_cast
          ring
    · show tyLen (FocusIssue_execute _ _ _).mesh _ = _
      rw [← h2, hstep.2.2.2.2.2.2, h2, h4]

/-- C2 (amended): on a record whose serialized list parses to n > 0 indices
of one of the three element types, with all indices inside the targeted
table, the k-th focus invocation finishes selecting indices[(k-1) mod n]:
that element alone carries a true flag in its table and the success message
names it at position ((k-1) mod n) + 1 of n.  However, after exactly n
invocations the stored cursor is n, not 0: it is wrapped back to 0 only at
the start of the following invocation. -/
theorem C2_cursor_cycling (item0 : TopoIssueItem) (mode0 : String)
    (bm0 : EMesh) (ids : List Int)
    (hp : pyParseIntList item0.element_indices = some ids)
    (hty : item0.element_type = "FACE" ∨ item0.element_type = "EDGE"
        ∨ item0.element_type = "VERT")
    (hn : 0 < ids.length)
    (hc : item0.current_pointer = 0)
    (hb : ∀ i ∈ ids, 0 ≤ i ∧ i < (tyLen bm0 item0.element_type : Int)) :
    (∀ k : Nat, 1 ≤ k →
      (focus_step (focusIter ⟨item0, mode0, bm0⟩ (k - 1))).result = .FINISHED
      ∧ (focus_step (focusIter ⟨item0, mode0, bm0⟩ (k - 1))).reports
          = [("INFO", "Selected " ++ item0.element_type ++ " #"
              ++ toString (ids.getD ((k - 1) % ids.length) 0)
              ++ " (" ++ toString ((((k - 1) % ids.length + 1 : Nat)) : Int)
              ++ "/" ++ toString ids.length ++ ")")]
      ∧ selFlags (focus_step (focusIter ⟨item0, mode0, bm0⟩ (k - 1))).mesh
            item0.element_type
          = (List.replicate (tyLen bm0 item0.element_type) false).set
              (ids.getD ((k - 1) % ids.length) 0).toNat true)
    ∧ (focusIter ⟨item0, mode0, bm0⟩ ids.length).item.current_pointer
        = (ids.length : Int) := by
  constructor
  · intro k hk
    obtain ⟨h1, h2, h3, h4⟩ :=
      focusIter_invariant item0 mode0 bm0 ids hp hty hn hc hb (k - 1)
    have hc0 : 0 ≤ (focusIter ⟨item0, mode0, bm0⟩ (k - 1)).item.current_pointer := by
      rw [h3]
      split
      · exact le_refl 0
      · exact Int.ofNat_nonneg _
    have hstep := focus_step_cycle (focusIter ⟨item0, mode0, bm0⟩ (k - 1)).item
        (focusIter ⟨item0, mode0, bm0⟩ (k - 1)).mode
        (focusIter ⟨item0, mode0, bm0⟩ (k - 1)).mesh ids
        (by rw [h1]; exact hp)
        (by rw [h2]; exact hty)
        hn hc0
        (by rw [h2, h4]; exact hb)
    have hcurk := (focusIter_invariant item0 mode0 bm0 ids hp hty hn hc hb k).2.2.1
    rw [show k = k - 1 + 1 from by omega] at hcurk
    have hcurk' : (focus_step (focusIter ⟨item0, mode0, bm0⟩ (k - 1))).item.current_pointer
        = (((k - 1 + 1 - 1) % ids.length + 1 : Nat) : Int) := by
      rw [show (focus_step (focusIter ⟨item0, mode0, bm0⟩ (k - 1))).item
            = (focusIter ⟨item0, mode0, bm0⟩ (k - 1 + 1)).item from rfl]
      rw [hcurk, if_neg (Nat.succ_ne_zero _)]
    rw [Nat.add_sub_cancel] at hcurk'
    have hInt : (if (ids.length : Int)
          ≤ (focusIter ⟨item0, mode0, bm0⟩ (k - 1)).item.current_pointer then 0
        else (focusIter ⟨item0, mode0, bm0⟩ (k - 1)).item.current_pointer)
        = (((k - 1) % ids.length : Nat) : Int) := by
      have := hstep.2.2.1
      rw [show (FocusIssue_execute (focusIter ⟨item0, mode0, bm0⟩ (k - 1)).item
            (focusIter ⟨item0, mode0, bm0⟩ (k - 1)).mode
            (focusIter ⟨item0, mode0, bm0⟩ (k - 1)).mesh)
          = focus_step (focusIter ⟨item0, mode0, bm0⟩ (k - 1)) from rfl] at this
      rw [hcurk'] at this
      push_cast at this ⊢
      omega
    have heffNat : (if (ids.length : Int)
          ≤ (focusIter ⟨item0, mode0, bm0⟩ (k - 1)).item.current_pointer then (0 : Nat)
        else (focusIter ⟨item0, mode0, bm0⟩ (k - 1)).item.current_pointer.toNat)
        = (k - 1) % ids.length := by
      split at hInt <;> rename_i hcond
      · rw [if_pos hcond]
        omega
      · rw [if_neg hcond]
        omega
    refine ⟨hstep.2.2.2.1, ?_, ?_⟩
    · show (FocusIssue_execute _ _ _).reports = _
      rw [hstep.2.2.2.2.1, h2, heffNat, hInt]
      push_cast
      rfl
    · show selFlags (FocusIssue_execute _ _ _).mesh _ = _
      rw [← h4, ← h2]
      rw [← heffNat]
      exact hstep.2.2.2.2.2.1
  · obtain ⟨-, -, h3, -⟩ :=
      focusIter_invariant item0 mode0 bm0 ids hp hty hn hc hb ids.length
    rw [h3, if_neg (by omega), Nat.mod_eq_of_lt (by omega)]
    push_cast
    omega

/-- C2 counterexample: a record with one parsed index; after exactly n = 1
invocation the stored cursor is 1, not back at 0. -/
theorem C2_counterexample :
    pyParseIntList "0" = some [0]
    ∧ ¬ ((focusIter ⟨⟨"HIGH", "n", "d", "0", "FACE", 0⟩, "EDIT",
          ⟨[], [], [⟨false, []⟩], []⟩⟩ 1).item.current_pointer = 0) := by
  decide

/-- C2 witness: on the record "2,5,9" over a ten-face mesh the fourth
invocation wraps to select face 2 again with message position 1 of 3, face
2 alone is selected, and after three invocations the cursor is 3. -/
theorem C2_cursor_cycling_witness :
    (focus_step (focusIter ⟨⟨"HIGH", "n", "d", "2,5,9", "FACE", 0⟩, "EDIT",
        ⟨[], [], [⟨false, []⟩, ⟨false, []⟩, ⟨false, []⟩, ⟨false, []⟩, ⟨false, []⟩,
          ⟨false, []⟩, ⟨false, []⟩, ⟨false, []⟩, ⟨false, []⟩, ⟨true, []⟩], []⟩⟩
        3)).result = .FINISHED
    ∧ (focus_step (focusIter ⟨⟨"HIGH", "n", "d", "2,5,9", "FACE", 0⟩, "EDIT",
        ⟨[], [], [⟨false, []⟩, ⟨false, []⟩, ⟨false, []⟩, ⟨false, []⟩, ⟨false, []⟩,
          ⟨false, []⟩, ⟨false, []⟩, ⟨false, []⟩, ⟨false, []⟩, ⟨true, []⟩], []⟩⟩
        3)).reports = [("INFO", "Selected FACE #2 (1/3)")]
    ∧ selFlags (focus_step (focusIter ⟨⟨"HIGH", "n", "d", "2,5,9", "FACE", 0⟩, "EDIT",
        ⟨[], [], [⟨false, []⟩, ⟨false, []⟩, ⟨false, []⟩, ⟨false, []⟩, ⟨false, []⟩,
          ⟨false, []⟩, ⟨false, []⟩, ⟨false, []⟩, ⟨false, []⟩, ⟨true, []⟩], []⟩⟩
        3)).mesh "FACE"
      = (List.replicate 10 false).set 2 true
    ∧ (focusIter ⟨⟨"HIGH", "n", "d", "2,5,9", "FACE", 0⟩, "EDIT",
        ⟨[], [], [⟨false, []⟩, ⟨false, []⟩, ⟨false, []⟩, ⟨false, []⟩, ⟨false, []⟩,
          ⟨false, []⟩, ⟨false, []⟩, ⟨false, []⟩, ⟨false, []⟩, ⟨true, []⟩], []⟩⟩
        3).item.current_pointer = 3 := by
  have h := C2_cursor_cycling ⟨"HIGH", "n", "d", "2,5,9", "FACE", 0⟩ "EDIT"
      ⟨[], [], [⟨false, []⟩, ⟨false, []⟩, ⟨false, []⟩, ⟨false, []⟩, ⟨false, []⟩,
        ⟨false, []⟩, ⟨false, []⟩, ⟨false, []⟩, ⟨false, []⟩, ⟨true, []⟩], []⟩
      [2, 5, 9] (by decide) (Or.inl rfl) (by decide) rfl (by decide)
  have h1 := h.1 4 (by omega)
  have h2 := h.2
  revert h1 h2
  decide
